import Mathlib

/-!
Verification of the jusik stock-analysis service against its design
specification.  The Python sources are shallowly embedded: pure
computations become Lean functions, exception-raising calls become
`Except String` values, and the `try/except` wrappers become matches on
those values.  Display strings are kept verbatim (they are part of the
business rules being checked).
-/

namespace Jusik

/-- NewsItem model (app/models/stock.py): a scraped news headline. -/
structure NewsItem where
  title : String
  desc : String
deriving DecidableEq, Repr

/-- StockAnalysis model (app/models/stock.py): the result record built by
`StockService.analyze_stock`. -/
structure StockAnalysis where
  basic_analysis : String
  risk_level : String
  urgency : String
  volume_analysis : String
  news_list : List NewsItem
  ai_analysis : Option String
deriving DecidableEq, Repr

/-- The (risk_level, analysis, urgency) triple chosen by the change-percent
ladder in `StockService.analyze_stock` (stock_service.py lines 155-171).
`change_value` is the parsed float of the change string (lines 142-146);
Python floats are modelled as rationals. -/
structure ChangeClass where
  risk_level : String
  analysis : String
  urgency : String
deriving DecidableEq, Repr

/-- stock_service.py lines 155-171: the change-percent ladder. -/
def changeClassification (change_value : ℚ) : ChangeClass :=
  if change_value ≥ 20 then
    { risk_level := "매우 높음"
      analysis := "급등주로 분류되며, 높은 변동성을 보입니다."
      urgency := "상한가 근접으로 매우 주의가 필요합니다." }
  else if change_value ≥ 10 then
    { risk_level := "높음"
      analysis := "상당한 상승을 보이며, 주의깊은 관찰이 필요합니다."
      urgency := "급등 패턴으로 신중한 접근이 필요합니다." }
  else if change_value ≥ 5 then
    { risk_level := "보통"
      analysis := "안정적인 상승세를 보이고 있습니다."
      urgency := "점진적 상승으로 관심을 가져볼 만합니다." }
  else
    { risk_level := "낮음"
      analysis := "점진적인 상승을 보이고 있습니다."
      urgency := "안정적인 상승세를 보이고 있습니다." }

/-- stock_service.py lines 173-179: the volume ladder.  `volume_num` is the
parsed integer of the comma-stripped volume string (lines 149-153). -/
def volumeClassification (volume_num : ℤ) : String :=
  if volume_num > 1000000 then "거래량이 매우 활발하여 관심도가 높습니다."
  else if volume_num > 100000 then "거래량이 평소보다 높아 관심이 증가하고 있습니다."
  else "거래량이 평소 수준입니다."

/-- `StockService.analyze_stock` (stock_service.py lines 138-200).
`change_value` and `volume_num` are the already-parsed numeric fields,
`news_list` stands for the result of `get_stock_news`, and `ai_call` for the
outcome of `self._get_ai_analysis(stock)`: `.error` when that coroutine
raises.  Lines 184-191: when `use_ai` is set, a raising AI call is caught
and replaced by the fixed unavailability message; the deterministic fields
are computed before and independently of it. -/
def analyze_stock (change_value : ℚ) (volume_num : ℤ) (news_list : List NewsItem)
    (use_ai : Bool) (ai_call : Except String String) : StockAnalysis :=
  let c := changeClassification change_value
  let volume_analysis := volumeClassification volume_num
  let ai_analysis : Option String :=
    if use_ai then
      match ai_call with
      | .ok s => some s
      | .error _ => some "AI 분석을 사용할 수 없습니다."
    else none
  { basic_analysis := c.analysis
    risk_level := c.risk_level
    urgency := c.urgency
    volume_analysis := volume_analysis
    news_list := news_list
    ai_analysis := ai_analysis }

/-! ### Agent tools (app/services/agent_service.py) -/

/-- Bool-valued: the first list starts the second (character lists). -/
def charPre : List Char → List Char → Bool
  | [], _ => true
  | _ :: _, [] => false
  | a :: as, b :: bs => a == b && charPre as bs

/-- Bool-valued contiguous-sublist test on character lists. -/
def charInfix (needle : List Char) : List Char → Bool
  | [] => charPre needle []
  | b :: bs => charPre needle (b :: bs) || charInfix needle bs

/-- Python's `needle in hay` on strings. -/
def strContains (hay needle : String) : Bool :=
  charInfix needle.toList hay.toList

/-- One entry of the JSON array fed to the technical/risk tools.  The
`change` field is the value of `float(stock.get("change", "0%").replace("%", ""))`;
the string-level parse is folded into the tools' parse oracle below. -/
structure AgentQuote where
  name : String
  change : ℚ
  volume : String
deriving DecidableEq, Repr

/-- Projected stock dict built by StockDataTool._run (lines 48-55). -/
structure StockDict where
  name : String
  price : String
  change : String
  volume : String
deriving DecidableEq, Repr

/-- Stand-in for `json.dumps` of the projected dicts (line 57). -/
def dumpStocks (stocks : List StockDict) : String :=
  String.intercalate ", "
    (stocks.map fun s => s.name ++ " " ++ s.price ++ " " ++ s.change ++ " " ++ s.volume)

/-- StockDataTool._run (agent_service.py lines 38-61).  `rising` and
`falling` model the outcomes of the two `stock_service` fetch calls:
`.error` when the fetch raises. -/
def stockDataToolRun (query : String) (rising falling : Except String (List StockDict)) :
    String :=
  let fetched :=
    if strContains query "급등" || strContains query "상승" then rising
    else if strContains query "급락" || strContains query "하락" then falling
    else rising
  match fetched with
  | .ok stocks => dumpStocks stocks
  | .error e => "데이터 수집 중 오류가 발생했습니다: " ++ e

/-- Parameters accepted by StockService.get_stock_news (stock_service.py
line 71): only `stock_name` (besides `self`). -/
def get_stock_news_params : List String := ["stock_name"]

/-- Keyword arguments supplied at the call site in NewsAnalysisTool._run
(agent_service.py line 81): `count=5`. -/
def news_call_kwargs : List String := ["count"]

/-- Keywords the callee does not accept.  A nonempty result means the
Python call itself raises TypeError before the callee body ever runs. -/
def unexpected_kwargs (params kwargs : List String) : List String :=
  kwargs.filter (fun k => !params.contains k)

/-- The TypeError text produced by the mismatched call (modelled). -/
def news_type_error : String :=
  "get_stock_news() got an unexpected keyword argument count"

/-- One entry of the news list the tool body expects (lines 87-93). -/
structure NewsDict where
  title : String
  content : String
  source : String
  published_at : String
deriving DecidableEq, Repr

/-- Stand-in for `json.dumps` of the formatted news items (line 95). -/
def dumpNews (items : List NewsDict) : String :=
  String.intercalate ", "
    (items.map fun n => n.title ++ " " ++ n.content ++ " " ++ n.source ++ " " ++ n.published_at)

/-- NewsAnalysisTool._run (agent_service.py lines 78-99).  The call on line
81 passes `count=5`, which `get_stock_news` does not accept, so it raises
and the except branch returns the error string; `news_data` stands for what
a successful call would have returned. -/
def newsAnalysisToolRun (stock_name : String) (news_data : List NewsDict) : String :=
  if (unexpected_kwargs get_stock_news_params news_call_kwargs).isEmpty then
    if news_data.isEmpty then stock_name ++ "에 대한 뉴스 정보가 없습니다."
    else dumpNews news_data
  else "뉴스 분석 중 오류가 발생했습니다: " ++ news_type_error

/-- Accumulator record of TechnicalAnalysisTool._run (lines 117-122);
the unused indicators dict is omitted. -/
structure TechnicalAnalysis where
  patterns : List String
  recommendation : String
deriving DecidableEq, Repr

/-- Loop body of TechnicalAnalysisTool._run (lines 125-136). -/
def technicalStep (acc : TechnicalAnalysis) (stock : AgentQuote) : TechnicalAnalysis :=
  if stock.change > 10 then
    { patterns := acc.patterns ++ [stock.name ++ ": 강한 상승 패턴"]
      recommendation := "매수 관심" }
  else if stock.change < -10 then
    { patterns := acc.patterns ++ [stock.name ++ ": 강한 하락 패턴"]
      recommendation := "매도 관심" }
  else
    { patterns := acc.patterns ++ [stock.name ++ ": 횡보 패턴"]
      recommendation := "관망" }

/-- Stand-in for `json.dumps` of the analysis dict (line 138). -/
def dumpTechnical (a : TechnicalAnalysis) : String :=
  String.intercalate ", " a.patterns ++ " | " ++ a.recommendation

/-- TechnicalAnalysisTool._run (agent_service.py lines 112-142).  `parsed`
models `json.loads` together with the per-quote float conversion of the
change field; `.error` when either raises (malformed input included). -/
def technicalAnalysisToolRun (parsed : Except String (List AgentQuote)) : String :=
  match parsed with
  | .ok data => dumpTechnical (data.foldl technicalStep ⟨[], ""⟩)
  | .error e => "기술적 분석 중 오류가 발생했습니다: " ++ e

/-- Per-quote risk score before capping (RiskAssessmentTool._run lines
170-185): base 5, +3 or +2 by the tiered change test, +1 on the volume
token test, in source order. -/
def risk_score (q : AgentQuote) : ℕ :=
  let s0 := 5
  let s1 := if 20 < |q.change| then s0 + 3 else if 10 < |q.change| then s0 + 2 else s0
  if strContains q.volume "M" || strContains q.volume "억" then s1 + 1 else s1

/-- `total_score` accumulation with the `min(risk_score, 10)` cap (line 187). -/
def risk_total (data : List AgentQuote) : ℕ :=
  (data.map (fun q => min (risk_score q) 10)).sum

/-- `overall_risk_score` (line 196): average of the capped scores over the
list, 5 when the list is empty. -/
def overall_risk_score (data : List AgentQuote) : ℚ :=
  if 0 < data.length then (risk_total data : ℚ) / (data.length : ℚ) else 5

/-- Stand-in for the serialized risk dict; only the score matters here. -/
def dumpRisk (r : ℚ) : String := "overall_risk_score " ++ toString r

/-- RiskAssessmentTool._run (agent_service.py lines 155-202), score part;
the risk_factors/recommendations string lists do not influence the scores. -/
def riskAssessmentToolRun (parsed : Except String (List AgentQuote)) : String :=
  match parsed with
  | .ok data => dumpRisk (overall_risk_score data)
  | .error e => "위험도 평가 중 오류가 발생했습니다: " ++ e

/-- The per-quote score exactly as the spec words it: base 5, plus 3 when
|changePercent| > 20, else plus 2 when |changePercent| > 10, plus 1 when
the volume token contains 억 or M, capped at 10. -/
def specQuoteScore (q : AgentQuote) : ℕ :=
  min (5 + (if 20 < |q.change| then 3 else if 10 < |q.change| then 2 else 0)
        + (if strContains q.volume "억" || strContains q.volume "M" then 1 else 0)) 10

/-! ### Multi-agent coordinator (app/services/agent_service.py lines 303-440) -/

/-- The five specialist agents of MultiAgentSystem, each modelled as a map
from the prompt it receives to its outcome (`.error` when `arun` raises). -/
structure AgentSet where
  data_collector : String → Except String String
  news_analyst : String → Except String String
  technical_analyst : String → Except String String
  risk_analyst : String → Except String String
  investment_advisor : String → Except String String

/-- Prompt of stage 1 of collaborative_analysis (line 409). -/
def dataPrompt (stock_name : String) : String :=
  stock_name ++ " 관련 주식 데이터를 수집해주세요"

/-- Prompt of stage 2 (line 412). -/
def newsPrompt (stock_name : String) : String :=
  stock_name ++ "에 대한 뉴스를 분석해주세요"

/-- Prompt of stage 3 (line 415). -/
def techPrompt (stock_name : String) : String :=
  stock_name ++ "의 기술적 분석을 수행해주세요"

/-- Prompt of stage 4 (line 418). -/
def riskPrompt (stock_name : String) : String :=
  stock_name ++ "의 위험도를 평가해주세요"

/-- Prompt of stage 5 (lines 421-423). -/
def advicePrompt (stock_name : String) : String :=
  "위의 모든 분석 결과를 바탕으로 " ++ stock_name ++ "에 대한 투자 조언을 제공해주세요"

/-- The `analysis_steps` dict of a successful collaborative run (lines
427-433). -/
structure CollabSteps where
  data_collection : String
  news_analysis : String
  technical_analysis : String
  risk_assessment : String
  investment_advice : String
deriving DecidableEq, Repr

/-- Return value of collaborative_analysis: either the five-stage dict or
the single-key error dict built by the except handler (lines 437-439). -/
inductive CollabResult
  | steps (stock_name : String) (analysis_steps : CollabSteps)
  | error (msg : String)
deriving DecidableEq, Repr

/-- MultiAgentSystem.collaborative_analysis (agent_service.py lines
405-439): the five `arun` awaits run in order inside one try block, so the
first raising stage propagates to the except handler, which returns the
error dict.  The Except monad models exactly this propagation. -/
def collaborative_analysis (ag : AgentSet) (stock_name : String) : CollabResult :=
  match
    (do
      let d ← ag.data_collector (dataPrompt stock_name)
      let n ← ag.news_analyst (newsPrompt stock_name)
      let t ← ag.technical_analyst (techPrompt stock_name)
      let r ← ag.risk_analyst (riskPrompt stock_name)
      let i ← ag.investment_advisor (advicePrompt stock_name)
      pure (CollabSteps.mk d n t r i) : Except String CollabSteps)
  with
  | .ok s => CollabResult.steps stock_name s
  | .error e => CollabResult.error ("협업 분석 중 오류가 발생했습니다: " ++ e)

/-- Per-agent try/except body of comprehensive_analysis (lines 382-389). -/
def runAgentSafe (f : String → Except String String) (query : String) : String :=
  match f query with
  | .ok r => r
  | .error e => "분석 실패: " ++ e

/-- MultiAgentSystem.comprehensive_analysis (agent_service.py lines
376-399), the per-agent results dict: each agent runs inside its own
try/except, so one failure is recorded under its key and the rest still
run.  Keys are listed in the insertion order of `self.agents` (lines
311-317). -/
def comprehensive_analysis (ag : AgentSet) (query : String) : List (String × String) :=
  [("data_collector", runAgentSafe ag.data_collector query),
   ("news_analyst", runAgentSafe ag.news_analyst query),
   ("technical_analyst", runAgentSafe ag.technical_analyst query),
   ("risk_analyst", runAgentSafe ag.risk_analyst query),
   ("investment_advisor", runAgentSafe ag.investment_advisor query)]

/-- An agent that always succeeds with a fixed text. -/
def okAgent (tag : String) : String → Except String String := fun _ => .ok tag

/-- An agent whose arun always raises. -/
def failingAgent : String → Except String String := fun _ => .error "boom"

/-- An agent that returns verbatim the prompt it was given, used to observe
which prompt each stage actually receives. -/
def echoAgent : String → Except String String := fun p => .ok p

/-- Agent set whose news stage raises while every other stage succeeds. -/
def newsFailureAgents : AgentSet :=
  ⟨okAgent "DATA", failingAgent, okAgent "TECH", okAgent "RISK", okAgent "ADVICE"⟩

/-- Agent set whose data stage produces a recognizable marker and whose
later stages echo their prompts. -/
def echoAgents : AgentSet :=
  ⟨okAgent "DATA-RESULT-XYZ", echoAgent, echoAgent, echoAgent, echoAgent⟩

/-! ### Agent executor construction and settings (agent_service.py,
app/core/config.py) -/

/-- The agent-related fields of Settings (config.py lines 38-41) with their
defaults. -/
structure AgentSettings where
  agent_verbose : Bool := true
  agent_max_iterations : ℕ := 10
  agent_timeout : ℕ := 300
deriving DecidableEq, Repr

/-- The global settings instance (config.py line 53), built from defaults. -/
def settings : AgentSettings := {}

/-- Keyword arguments of the `initialize_agent` call in
StockAnalysisAgent._create_agent (agent_service.py lines 252-262). -/
def create_agent_kwargs : List String :=
  ["tools", "llm", "agent", "memory", "verbose", "handle_parsing_errors", "agent_kwargs"]

/-- Keyword arguments of each of the five `initialize_agent` calls in
MultiAgentSystem (agent_service.py lines 324-329, 334-339, 344-349,
354-359, 369-374). -/
def multi_agent_kwargs : List String :=
  ["tools", "llm", "agent", "verbose"]

/-! ### RAG service (app/services/langchain_ai_service.py) -/

/-- _init_vectorstore (lines 71-82): `true` when the Chroma construction
succeeds, `false` (vectorstore = None) when it raises. -/
def init_vectorstore (chroma : Except String Unit) : Bool :=
  match chroma with
  | .ok _ => true
  | .error _ => false

/-- The early-return message of get_contextual_analysis (line 337). -/
def rag_not_ready_msg : String := "RAG 시스템이 초기화되지 않았습니다."

/-- get_contextual_analysis (langchain_ai_service.py lines 334-344).
`vectorstore` and `rag_chain` model the truthiness of the two attributes;
`run_chain` models the rag_chain call (`.error` when it raises). -/
def get_contextual_analysis (vectorstore rag_chain : Bool)
    (run_chain : String → Except String String) (query : String) : String :=
  if !vectorstore || !rag_chain then rag_not_ready_msg
  else
    match run_chain query with
    | .ok r => r
    | .error e => "분석 중 오류가 발생했습니다: " ++ e

end Jusik

namespace Jusik

/-- C1: the deterministic risk buckets are exactly `>=20`, `[10,20)`, `[5,10)`
and `(-∞,5)`, and each bucket fixes the matching basic-analysis and urgency
wording. -/
theorem risk_level_buckets (x : ℚ) (v : ℤ) (news : List NewsItem)
    (u : Bool) (ai : Except String String) :
    ((analyze_stock x v news u ai).risk_level = "매우 높음" ↔ 20 ≤ x) ∧
    ((analyze_stock x v news u ai).risk_level = "높음" ↔ 10 ≤ x ∧ x < 20) ∧
    ((analyze_stock x v news u ai).risk_level = "보통" ↔ 5 ≤ x ∧ x < 10) ∧
    ((analyze_stock x v news u ai).risk_level = "낮음" ↔ x < 5) ∧
    ((analyze_stock x v news u ai).risk_level = "매우 높음" →
      (analyze_stock x v news u ai).basic_analysis = "급등주로 분류되며, 높은 변동성을 보입니다." ∧
      (analyze_stock x v news u ai).urgency = "상한가 근접으로 매우 주의가 필요합니다.") ∧
    ((analyze_stock x v news u ai).risk_level = "높음" →
      (analyze_stock x v news u ai).basic_analysis = "상당한 상승을 보이며, 주의깊은 관찰이 필요합니다." ∧
      (analyze_stock x v news u ai).urgency = "급등 패턴으로 신중한 접근이 필요합니다.") ∧
    ((analyze_stock x v news u ai).risk_level = "보통" →
      (analyze_stock x v news u ai).basic_analysis = "안정적인 상승세를 보이고 있습니다." ∧
      (analyze_stock x v news u ai).urgency = "점진적 상승으로 관심을 가져볼 만합니다.") ∧
    ((analyze_stock x v news u ai).risk_level = "낮음" →
      (analyze_stock x v news u ai).basic_analysis = "점진적인 상승을 보이고 있습니다." ∧
      (analyze_stock x v news u ai).urgency = "안정적인 상승세를 보이고 있습니다.") := by
  have h : (analyze_stock x v news u ai).risk_level = (changeClassification x).risk_level := rfl
  have hb : (analyze_stock x v news u ai).basic_analysis = (changeClassification x).analysis := rfl
  have hu : (analyze_stock x v news u ai).urgency = (changeClassification x).urgency := rfl
  rw [h, hb, hu]
  unfold changeClassification
  split_ifs with h1 h2 h3 <;> simp +decide <;>
    refine ⟨?_, ?_, ?_, ?_⟩ <;>
    first
      | linarith
      | (intro hx; linarith)
      | (constructor <;> linarith)

/-- C7: the volume note is the very-active wording iff the count exceeds
1,000,000, the elevated wording iff it lies in (100,000, 1,000,000], and the
normal wording otherwise; exactly 1,000,000 lands in the elevated bucket. -/
theorem volume_note_buckets (v : ℤ) (x : ℚ) (news : List NewsItem)
    (u : Bool) (ai : Except String String) :
    ((analyze_stock x v news u ai).volume_analysis = "거래량이 매우 활발하여 관심도가 높습니다."
      ↔ 1000000 < v) ∧
    ((analyze_stock x v news u ai).volume_analysis = "거래량이 평소보다 높아 관심이 증가하고 있습니다."
      ↔ 100000 < v ∧ v ≤ 1000000) ∧
    ((analyze_stock x v news u ai).volume_analysis = "거래량이 평소 수준입니다."
      ↔ v ≤ 100000) ∧
    volumeClassification 1000000 = "거래량이 평소보다 높아 관심이 증가하고 있습니다." := by
  have h : (analyze_stock x v news u ai).volume_analysis = volumeClassification v := rfl
  rw [h]
  refine ⟨?_, ?_, ?_, by decide⟩ <;>
    · unfold volumeClassification
      split_ifs with h1 h2 <;> simp +decide <;> omega

/-- C5: with AI enabled and a raising LLM call, `analyze_stock` still returns
a result, whose deterministic fields coincide with the pure fallback path on
the same input, and whose ai_analysis field holds the fixed fallback message. -/
theorem ai_failure_falls_back (x : ℚ) (v : ℤ) (news : List NewsItem) (e : String) :
    (analyze_stock x v news true (.error e)).risk_level
        = (analyze_stock x v news false (.error e)).risk_level ∧
    (analyze_stock x v news true (.error e)).basic_analysis
        = (analyze_stock x v news false (.error e)).basic_analysis ∧
    (analyze_stock x v news true (.error e)).urgency
        = (analyze_stock x v news false (.error e)).urgency ∧
    (analyze_stock x v news true (.error e)).volume_analysis
        = (analyze_stock x v news false (.error e)).volume_analysis ∧
    (analyze_stock x v news true (.error e)).news_list
        = (analyze_stock x v news false (.error e)).news_list ∧
    (analyze_stock x v news true (.error e)).ai_analysis
        = some "AI 분석을 사용할 수 없습니다." :=
  ⟨rfl, rfl, rfl, rfl, rfl, rfl⟩

/-- C3: each quote's capped risk score equals the spec formula — base 5,
tiered +3 for |change|>20 / +2 for |change|>10, +1 when the volume token
contains 억 or M, capped at 10 — and for a nonempty list the overall score
is the average of those per-quote scores. -/
theorem assess_risk_scores (data : List AgentQuote) (h : 0 < data.length) :
    (∀ q : AgentQuote, min (risk_score q) 10 = specQuoteScore q) ∧
    overall_risk_score data = ((data.map specQuoteScore).sum : ℚ) / (data.length : ℚ) := by
  have hq : ∀ q : AgentQuote, min (risk_score q) 10 = specQuoteScore q := by
    intro q
    unfold risk_score specQuoteScore
    cases hM : strContains q.volume "M" <;> cases hE : strContains q.volume "억" <;>
      simp only [hM, hE, Bool.false_or, Bool.true_or, Bool.or_false, Bool.or_true] <;>
      split_ifs <;> simp_all
  refine ⟨hq, ?_⟩
  unfold overall_risk_score risk_total
  rw [if_pos h]
  simp only [hq]

/-- Witness for C3 at the one-quote list [A, +25%, volume 10M]. -/
theorem assess_risk_scores_witness :
    0 < ([({ name := "A", change := 25, volume := "10M" } : AgentQuote)]).length ∧
    ((∀ q : AgentQuote, min (risk_score q) 10 = specQuoteScore q) ∧
      overall_risk_score [({ name := "A", change := 25, volume := "10M" } : AgentQuote)] =
        ((([({ name := "A", change := 25, volume := "10M" } : AgentQuote)]).map specQuoteScore).sum : ℚ) /
          (([({ name := "A", change := 25, volume := "10M" } : AgentQuote)]).length : ℚ)) :=
  ⟨by decide, assess_risk_scores _ (by decide)⟩

/-- C6: every tool's run method catches a raising body and returns the
descriptive error string as its output: the stock-data tool when the fetch
raises (whichever keyword branch is taken), the news tool (whose inner call
always raises on the unexpected keyword), and the technical and risk tools
when parsing or conversion raises on malformed input. -/
theorem tools_return_error_strings (query stock_name e : String) (nd : List NewsDict) :
    stockDataToolRun query (.error e) (.error e) = "데이터 수집 중 오류가 발생했습니다: " ++ e ∧
    newsAnalysisToolRun stock_name nd = "뉴스 분석 중 오류가 발생했습니다: " ++ news_type_error ∧
    technicalAnalysisToolRun (.error e) = "기술적 분석 중 오류가 발생했습니다: " ++ e ∧
    riskAssessmentToolRun (.error e) = "위험도 평가 중 오류가 발생했습니다: " ++ e := by
  refine ⟨?_, ?_, rfl, rfl⟩
  · unfold stockDataToolRun
    split_ifs <;> rfl
  · unfold newsAnalysisToolRun
    simp +decide

/-- C10: the news tool's inner call passes the keyword `count`, which
get_stock_news does not accept, so the call always raises TypeError and the
run method always returns the error string, never a formatted news list. -/
theorem news_tool_always_returns_error (stock_name : String) (news_data : List NewsDict) :
    unexpected_kwargs get_stock_news_params news_call_kwargs = ["count"] ∧
    newsAnalysisToolRun stock_name news_data =
      "뉴스 분석 중 오류가 발생했습니다: " ++ news_type_error := by
  refine ⟨by decide, ?_⟩
  unfold newsAnalysisToolRun
  simp +decide

/-- C2 counterexample: with the news stage raising and every other stage
healthy, collaborative_analysis returns the single-key error dict — not a
five-stage dict with an error string under news_analysis — and the
technical, risk and advisory stages leave no trace in the result. -/
theorem collaborative_news_failure_aborts :
    collaborative_analysis newsFailureAgents "삼성전자" =
      CollabResult.error ("협업 분석 중 오류가 발생했습니다: " ++ "boom") := by
  rfl

/-- C2 amended: a stage failure aborts collaborative_analysis, which
returns only the error dict; the per-stage capture-and-continue behavior
belongs to comprehensive_analysis, where all five keys are present and the
failing agent's key holds the error string. -/
theorem multi_agent_stage_failure (ag : AgentSet) (name q e d : String)
    (hd : ag.data_collector (dataPrompt name) = Except.ok d)
    (hn : ag.news_analyst (newsPrompt name) = Except.error e)
    (hq : ag.news_analyst q = Except.error e) :
    collaborative_analysis ag name =
      CollabResult.error ("협업 분석 중 오류가 발생했습니다: " ++ e) ∧
    (comprehensive_analysis ag q).map Prod.fst =
      ["data_collector", "news_analyst", "technical_analyst",
       "risk_analyst", "investment_advisor"] ∧
    (comprehensive_analysis ag q).lookup "news_analyst" = some ("분석 실패: " ++ e) := by
  refine ⟨?_, rfl, ?_⟩
  · unfold collaborative_analysis
    rw [hd, hn]
    rfl
  · simp +decide [comprehensive_analysis, runAgentSafe, hq, List.lookup]

/-- Witness for C2 (amended) at the concrete failing-news agent set. -/
theorem multi_agent_stage_failure_witness :
    (newsFailureAgents.data_collector (dataPrompt "삼성전자") = Except.ok "DATA" ∧
     newsFailureAgents.news_analyst (newsPrompt "삼성전자") = Except.error "boom" ∧
     newsFailureAgents.news_analyst "시장" = Except.error "boom") ∧
    (collaborative_analysis newsFailureAgents "삼성전자" =
      CollabResult.error ("협업 분석 중 오류가 발생했습니다: " ++ "boom") ∧
    (comprehensive_analysis newsFailureAgents "시장").map Prod.fst =
      ["data_collector", "news_analyst", "technical_analyst",
       "risk_analyst", "investment_advisor"] ∧
    (comprehensive_analysis newsFailureAgents "시장").lookup "news_analyst" =
      some ("분석 실패: " ++ "boom")) :=
  ⟨⟨rfl, rfl, rfl⟩,
    multi_agent_stage_failure newsFailureAgents "삼성전자" "시장" "boom" "DATA" rfl rfl rfl⟩

/-- C4 counterexample: with echoing agents, the news stage receives (and
returns) exactly the fixed prompt built from the stock name; that prompt
does not contain the data-collection result, and the advisory prompt
contains none of the earlier outputs either — nothing is threaded. -/
theorem collaborative_outputs_not_threaded :
    collaborative_analysis echoAgents "테스트" =
      CollabResult.steps "테스트"
        { data_collection := "DATA-RESULT-XYZ"
          news_analysis := "테스트에 대한 뉴스를 분석해주세요"
          technical_analysis := "테스트의 기술적 분석을 수행해주세요"
          risk_assessment := "테스트의 위험도를 평가해주세요"
          investment_advice := "위의 모든 분석 결과를 바탕으로 테스트에 대한 투자 조언을 제공해주세요" } ∧
    strContains "테스트에 대한 뉴스를 분석해주세요" "DATA-RESULT-XYZ" = false ∧
    strContains "위의 모든 분석 결과를 바탕으로 테스트에 대한 투자 조언을 제공해주세요"
      "DATA-RESULT-XYZ" = false := by
  refine ⟨by decide, by decide, by decide⟩

/-- C4 amended: the five stages run in the fixed order, but each stage's
prompt is a function of the stock name alone, so the result is exactly each
agent applied to its fixed prompt and no stage output reaches a later
prompt. -/
theorem collaborative_stage_prompts_fixed (ag : AgentSet) (name d n t r i : String)
    (hd : ag.data_collector (dataPrompt name) = Except.ok d)
    (hn : ag.news_analyst (newsPrompt name) = Except.ok n)
    (ht : ag.technical_analyst (techPrompt name) = Except.ok t)
    (hr : ag.risk_analyst (riskPrompt name) = Except.ok r)
    (hi : ag.investment_advisor (advicePrompt name) = Except.ok i) :
    collaborative_analysis ag name = CollabResult.steps name ⟨d, n, t, r, i⟩ := by
  unfold collaborative_analysis
  rw [hd, hn, ht, hr, hi]
  rfl

/-- Witness for C4 (amended) at the echoing agent set. -/
theorem collaborative_stage_prompts_fixed_witness :
    (echoAgents.data_collector (dataPrompt "테스트") = Except.ok "DATA-RESULT-XYZ" ∧
     echoAgents.news_analyst (newsPrompt "테스트") = Except.ok (newsPrompt "테스트") ∧
     echoAgents.technical_analyst (techPrompt "테스트") = Except.ok (techPrompt "테스트") ∧
     echoAgents.risk_analyst (riskPrompt "테스트") = Except.ok (riskPrompt "테스트") ∧
     echoAgents.investment_advisor (advicePrompt "테스트") = Except.ok (advicePrompt "테스트")) ∧
    collaborative_analysis echoAgents "테스트" =
      CollabResult.steps "테스트"
        ⟨"DATA-RESULT-XYZ", newsPrompt "테스트", techPrompt "테스트",
         riskPrompt "테스트", advicePrompt "테스트"⟩ :=
  ⟨⟨rfl, rfl, rfl, rfl, rfl⟩,
    collaborative_stage_prompts_fixed echoAgents "테스트" _ _ _ _ _ rfl rfl rfl rfl rfl⟩

/-- C9 counterexample: Settings does define agent_max_iterations = 10 and
agent_timeout = 300, but _create_agent passes neither max_iterations nor
max_execution_time when it builds the executor, so the configurable bound
the claim describes is never attached to the loop. -/
theorem agent_bounds_not_passed :
    settings.agent_max_iterations = 10 ∧ settings.agent_timeout = 300 ∧
    create_agent_kwargs.contains "max_iterations" = false ∧
    create_agent_kwargs.contains "max_execution_time" = false :=
  ⟨rfl, rfl, by decide, by decide⟩

/-- C9 amended: the configured defaults exist (10 iterations, 300 seconds),
but no executor construction in the repository — neither the single agent
nor any of the five multi-agent ones — passes max_iterations or
max_execution_time, so the executors run on library defaults and the
configured bounds have no effect on termination. -/
theorem agent_bounds_unwired :
    settings.agent_max_iterations = 10 ∧ settings.agent_timeout = 300 ∧
    create_agent_kwargs.contains "max_iterations" = false ∧
    create_agent_kwargs.contains "max_execution_time" = false ∧
    multi_agent_kwargs.contains "max_iterations" = false ∧
    multi_agent_kwargs.contains "max_execution_time" = false :=
  ⟨rfl, rfl, by decide, by decide, by decide, by decide⟩

/-- C8 counterexample: a query on the disabled store does not produce an
empty result — it returns the fixed, non-empty not-ready message string
(the code has no list-returning query path). -/
theorem disabled_store_query_not_empty :
    get_contextual_analysis false false (fun _ => Except.error "down") "질문"
      = rag_not_ready_msg ∧
    rag_not_ready_msg ≠ "" :=
  ⟨rfl, by decide⟩

/-- C8 amended: when the vector-store construction raised, the store is
disabled, and every contextual-analysis query then returns the fixed
not-ready message without invoking the chain and without raising. -/
theorem disabled_store_query_safe (e q : String) (rc : Bool)
    (run_chain : String → Except String String) :
    init_vectorstore (Except.error e) = false ∧
    get_contextual_analysis false rc run_chain q = rag_not_ready_msg :=
  ⟨rfl, rfl⟩

end Jusik
